import Mathlib

/-!
Verification of the windscreen frost/fog risk classifier and its
surrounding glue from `src/app.py` (arunsketh/Weather).

Numeric inputs are modelled as rationals: every branch condition of the
classifier is a linear comparison, and every concrete input appearing in
the specification is exactly representable, so the rational model agrees
with the Python float semantics on all of them.
-/

namespace Weather

/-- The record produced by `calculate_frost_risk` (src/app.py:115-116):
`pd.Series([risk_level, color, text_color, minutes_to_clear, condition])`. -/
structure RiskAssessment where
  risk : String
  bg_color : String
  text_color : String
  base_minutes : ℤ
  condition : String
deriving DecidableEq, Repr

/-- The default ("no risk") assessment set up at src/app.py:82-86. -/
def clearAssessment : RiskAssessment :=
  ⟨"None", "#e6f4ea", "green", 0, "Clear"⟩

/-- The severe-ice assessment (src/app.py:90-95). -/
def severeIceAssessment : RiskAssessment :=
  ⟨"Severe Ice", "#fce8e6", "darkred", 15, "Hard Ice"⟩

/-- The frost/ice assessment (src/app.py:96-101). -/
def frostIceAssessment : RiskAssessment :=
  ⟨"Frost/Ice", "#fce8e6", "red", 10, "Icy"⟩

/-- The light-frost assessment (src/app.py:102-107). -/
def lightFrostAssessment : RiskAssessment :=
  ⟨"Light Frost", "#fef7e0", "orange", 5, "Frosty"⟩

/-- The fog assessment (src/app.py:108-113). -/
def fogAssessment : RiskAssessment :=
  ⟨"Fog", "#f1f3f4", "gray", 2, "Foggy"⟩

/-- `calculate_frost_risk` (src/app.py:75-116).  `spread = temp - dew_point`
is inlined.  The Python sets the "None"/clear defaults and overwrites them
inside the matching branch; the nested if/else below is the exact decision
structure: the fog `elif` is only evaluated when `temp > 3.0`, and a
`temp <= 3.0` hour whose inner guard fails keeps the defaults. -/
def calculate_frost_risk (temp dew_point humidity wind : ℚ) : RiskAssessment :=
  if temp ≤ 3 then
    if temp - dew_point < 2 ∨ (temp ≤ 0 ∧ humidity > 80) then
      if temp < -5 then severeIceAssessment
      else if temp ≤ 0 then frostIceAssessment
      else lightFrostAssessment
    else clearAssessment
  else if temp - dew_point < 5/2 ∧ humidity > 90 ∧ wind < 10 then
    fogAssessment
  else clearAssessment

/-- `CAR_TYPES` (src/app.py:10-15): vehicle name and delay factor. -/
def CAR_TYPES : List (String × ℚ) :=
  [("Compact / Hatchback", 4/5),
   ("Sedan / Saloon", 1),
   ("SUV / Crossover", 6/5),
   ("Van / Truck", 3/2)]

/-- Round-half-to-even on rationals: the rounding applied by
`(df['base_minutes'] * car_factor).round()` at src/app.py:173
(pandas/numpy rounding, also Python's built-in `round`). -/
def roundHalfEven (q : ℚ) : ℤ :=
  if q - Int.floor q < 1/2 then Int.floor q
  else if q - Int.floor q > 1/2 then Int.floor q + 1
  else if Int.floor q % 2 = 0 then Int.floor q else Int.floor q + 1

/-- `df['total_delay'] = (df['base_minutes'] * car_factor).round().astype(int)`
(src/app.py:172-173). -/
def total_delay (base_minutes : ℤ) (car_factor : ℚ) : ℤ :=
  roundHalfEven (base_minutes * car_factor)

/-- Session location state (`st.session_state.latitude` / `.longitude` /
`.location_name`, src/app.py:122-125). -/
structure SessionState where
  latitude : ℚ
  longitude : ℚ
  location_name : String
deriving DecidableEq, Repr

/-- A location lookup step's successful payload: latitude, longitude,
display name. -/
def GeoResult := ℚ × ℚ × String

/-- `get_coordinates_from_search` (src/app.py:49-73), with each HTTP step
abstracted as an optional result (a failed request, non-200 status or
missing field makes the step yield nothing).  The postcode lookup is
tried first; on its failure the free-text geocoder; exhausting both
returns `(None, None, None)` (src/app.py:73). -/
def get_coordinates_from_search (postcode_step geocode_step : Option GeoResult) :
    Option ℚ × Option ℚ × Option String :=
  match postcode_step with
  | some (la, lo, n) => (some la, some lo, some n)
  | none =>
    match geocode_step with
    | some (la, lo, n) => (some la, some lo, some n)
    | none => (none, none, none)

/-- Outcome of the search button handler: either the session state was
updated and the app rerun, or `st.error("Not found.")` was shown. -/
inductive SearchOutcome
  | updated
  | notFound
deriving DecidableEq, Repr

/-- Python truthiness of the returned latitude, as tested by `if lat:`
(src/app.py:137): `None` and `0.0` are falsy. -/
def truthy : Option ℚ → Bool
  | none => false
  | some x => decide (x ≠ 0)

/-- The search button handler (src/app.py:134-143): resolve the query,
and only when the returned latitude is truthy store the new location;
otherwise report "Not found." and leave the session state untouched. -/
def handle_search (st : SessionState) (postcode_step geocode_step : Option GeoResult) :
    SessionState × SearchOutcome :=
  let r := get_coordinates_from_search postcode_step geocode_step
  if truthy r.1 then
    (⟨(r.1).getD 0, (r.2.1).getD 0, (r.2.2).getD ""⟩, SearchOutcome.updated)
  else
    (st, SearchOutcome.notFound)

/-- The guard `if lat and lon:` (src/app.py:162) deciding whether the
forecast fetch and all rendering run: Python truthiness of both stored
coordinates. -/
def shouldFetch (st : SessionState) : Bool :=
  decide (st.latitude ≠ 0) && decide (st.longitude ≠ 0)

end Weather

namespace Weather

/-- Case analysis on the decision list of `calculate_frost_risk`: every
input lands in exactly one branch, producing one of the five fixed
assessment records. -/
theorem classify_cases (t d h w : ℚ) :
    calculate_frost_risk t d h w = clearAssessment ∨
    calculate_frost_risk t d h w = lightFrostAssessment ∨
    calculate_frost_risk t d h w = frostIceAssessment ∨
    calculate_frost_risk t d h w = severeIceAssessment ∨
    calculate_frost_risk t d h w = fogAssessment := by
  unfold calculate_frost_risk
  split_ifs <;> tauto

/-- Claim C1: within the frost/ice branch (temperature at most 3 and the
frost guard satisfied), the classifier sub-classifies by temperature,
most severe first: below -5 gives Severe Ice / 15 minutes / "Hard Ice";
otherwise at most 0 gives Frost/Ice / 10 minutes / "Icy"; otherwise
Light Frost / 5 minutes / "Frosty".  In particular
classify(2.0, 2.5, 85, 5) is Light Frost with 5 minutes and
classify(-6.0, -8.0, 95, 3) is Severe Ice with 15 minutes. -/
theorem frost_branch_subclassification (t d h w : ℚ)
    (ht : t ≤ 3) (hg : t - d < 2 ∨ (t ≤ 0 ∧ h > 80)) :
    ((t < -5 → calculate_frost_risk t d h w = severeIceAssessment) ∧
     (¬ t < -5 → t ≤ 0 → calculate_frost_risk t d h w = frostIceAssessment) ∧
     (¬ t ≤ 0 → calculate_frost_risk t d h w = lightFrostAssessment)) ∧
    calculate_frost_risk 2 (5/2) 85 5 = lightFrostAssessment ∧
    calculate_frost_risk (-6) (-8) 95 3 = severeIceAssessment := by
  refine ⟨⟨?_, ?_, ?_⟩, by norm_num [calculate_frost_risk],
    by norm_num [calculate_frost_risk]⟩
  · intro hsev
    unfold calculate_frost_risk
    rw [if_pos ht, if_pos hg, if_pos hsev]
  · intro hnsev hle
    unfold calculate_frost_risk
    rw [if_pos ht, if_pos hg, if_neg hnsev, if_pos hle]
  · intro hpos
    have hnsev : ¬ t < -5 := by push_neg at hpos ⊢; linarith
    unfold calculate_frost_risk
    rw [if_pos ht, if_pos hg, if_neg hnsev, if_neg hpos]

/-- Witness for C1 at the concrete input (-6, -8, 95, 3). -/
theorem frost_branch_subclassification_witness :
    calculate_frost_risk (-6) (-8) 95 3 = severeIceAssessment :=
  (frost_branch_subclassification (-6) (-8) 95 3 (by norm_num)
    (by norm_num)).1.1 (by norm_num)

/-- Claim C2: for temperature above 3, the classifier returns Fog (2
minutes, "Foggy") exactly when spread is below 2.5, humidity above 90 and
wind below 10; in particular classify(5.0, 3.2, 92, 8) is Fog with 2
minutes. -/
theorem fog_branch_above_three_iff (t d h w : ℚ) (ht : t > 3) :
    (calculate_frost_risk t d h w = fogAssessment ↔
      (t - d < 5/2 ∧ h > 90 ∧ w < 10)) ∧
    calculate_frost_risk 5 (16/5) 92 8 = fogAssessment := by
  refine ⟨?_, by norm_num [calculate_frost_risk]⟩
  unfold calculate_frost_risk
  rw [if_neg (not_le.mpr ht)]
  by_cases hc : t - d < 5/2 ∧ h > 90 ∧ w < 10
  · simp [hc]
  · simp [hc, clearAssessment, fogAssessment]

/-- Witness for C2 at the concrete input (5, 16/5, 92, 8). -/
theorem fog_branch_above_three_iff_witness :
    calculate_frost_risk 5 (16/5) 92 8 = fogAssessment :=
  (fog_branch_above_three_iff 5 (16/5) 92 8 (by norm_num)).1.mpr (by norm_num)

/-- Claim C3: for temperature at most 3 with the frost guard failing
(spread at least 2 and not both temperature at most 0 and humidity above
80), the classifier returns the clear/None assessment (risk "None", 0
minutes, "Clear"); in particular classify(1.0, -3.0, 60, 5) is None. -/
theorem cold_dry_hour_classified_none (t d h w : ℚ)
    (ht : t ≤ 3) (hs : 2 ≤ t - d) (hh : ¬(t ≤ 0 ∧ h > 80)) :
    calculate_frost_risk t d h w = clearAssessment ∧
    calculate_frost_risk 1 (-3) 60 5 = clearAssessment := by
  have hng : ¬(t - d < 2 ∨ (t ≤ 0 ∧ h > 80)) := by
    rintro (hlt | hand)
    · linarith
    · exact hh hand
  refine ⟨?_, by norm_num [calculate_frost_risk]⟩
  unfold calculate_frost_risk
  rw [if_pos ht, if_neg hng]

/-- Witness for C3 at the concrete input (1, -3, 60, 5). -/
theorem cold_dry_hour_classified_none_witness :
    calculate_frost_risk 1 (-3) 60 5 = clearAssessment :=
  (cold_dry_hour_classified_none 1 (-3) 60 5 (by norm_num) (by norm_num)
    (by norm_num)).1

/-- Counterexample to claim C4: at (2.0, -0.2, 92, 5) the temperature is
at most 3, the frost guard fails, and the fog conditions all hold, yet
the classifier returns the clear/None assessment, not Fog: the fog
branch is an elif of the temperature test, never reached when
temperature is at most 3. -/
theorem fog_after_failed_frost_guard_cex :
    ((2:ℚ) ≤ 3 ∧ ¬((2:ℚ) - (-1/5) < 2 ∨ ((2:ℚ) ≤ 0 ∧ (92:ℚ) > 80)) ∧
     ((2:ℚ) - (-1/5) < 5/2 ∧ (92:ℚ) > 90 ∧ (5:ℚ) < 10)) ∧
    calculate_frost_risk 2 (-1/5) 92 5 = clearAssessment ∧
    calculate_frost_risk 2 (-1/5) 92 5 ≠ fogAssessment := by
  refine ⟨by norm_num, by norm_num [calculate_frost_risk], ?_⟩
  norm_num [calculate_frost_risk, clearAssessment, fogAssessment]

/-- Claim C4 as amended: the fog branch is evaluated only when
temperature is above 3; an hour with temperature at most 3 whose frost
guard fails is classified None even when all fog conditions hold. -/
theorem fog_branch_requires_temp_above_three (t d h w : ℚ)
    (ht : t ≤ 3) (hg : ¬(t - d < 2 ∨ (t ≤ 0 ∧ h > 80)))
    (hfog : t - d < 5/2 ∧ h > 90 ∧ w < 10) :
    calculate_frost_risk t d h w = clearAssessment := by
  unfold calculate_frost_risk
  rw [if_pos ht, if_neg hg]

/-- Witness for amended C4 at the concrete input (2, -1/5, 92, 5). -/
theorem fog_branch_requires_temp_above_three_witness :
    calculate_frost_risk 2 (-1/5) 92 5 = clearAssessment :=
  fog_branch_requires_temp_above_three 2 (-1/5) 92 5 (by norm_num)
    (by norm_num) (by norm_num)

/-- Counterexample to claim C5: classify(-1, -3, 50, 5) returns the
clear/None assessment, not Frost/Ice with 10 minutes: the spread equals
exactly 2, which does not satisfy spread < 2.0, and humidity 50 does not
exceed 80, so the frost guard fails. -/
theorem classify_neg1_neg3_cex :
    calculate_frost_risk (-1) (-3) 50 5 = clearAssessment ∧
    (calculate_frost_risk (-1) (-3) 50 5).risk ≠ "Frost/Ice" ∧
    (calculate_frost_risk (-1) (-3) 50 5).base_minutes ≠ 10 := by
  norm_num [calculate_frost_risk, clearAssessment]
  decide

/-- Claim C5 as amended: classify(-1.0, -3.0, 50, 5) returns None with 0
base minutes, because the spread is exactly 2 (failing spread < 2.0) and
humidity 50 is not above 80, so the frost guard fails. -/
theorem classify_neg1_neg3_returns_none :
    calculate_frost_risk (-1) (-3) 50 5 = clearAssessment ∧
    (-1 : ℚ) - (-3) = 2 ∧ ¬((2:ℚ) < 2) ∧ ¬((50:ℚ) > 80) := by
  refine ⟨by norm_num [calculate_frost_risk], by norm_num, by norm_num,
    by norm_num⟩

/-- Claim C6: the classifier is total over its numeric domain and its
result is always one of the five fixed assessment records, whose risk
field is exactly one member of the closed enumeration
None / Light Frost / Frost-Ice / Severe Ice / Fog. -/
theorem classify_total_closed_enumeration (t d h w : ℚ) :
    (calculate_frost_risk t d h w = clearAssessment ∨
     calculate_frost_risk t d h w = lightFrostAssessment ∨
     calculate_frost_risk t d h w = frostIceAssessment ∨
     calculate_frost_risk t d h w = severeIceAssessment ∨
     calculate_frost_risk t d h w = fogAssessment) ∧
    ((calculate_frost_risk t d h w).risk = "None" ∨
     (calculate_frost_risk t d h w).risk = "Light Frost" ∨
     (calculate_frost_risk t d h w).risk = "Frost/Ice" ∨
     (calculate_frost_risk t d h w).risk = "Severe Ice" ∨
     (calculate_frost_risk t d h w).risk = "Fog") := by
  have hc := classify_cases t d h w
  refine ⟨hc, ?_⟩
  rcases hc with h | h | h | h | h <;> rw [h] <;> simp [clearAssessment,
    lightFrostAssessment, frostIceAssessment, severeIceAssessment,
    fogAssessment]

/-- Claim C7: for every classified hour and every vehicle delay factor
from CAR_TYPES, the total delay equals the product of base minutes and
the factor rounded half-to-even (the rounding of pandas/numpy and of the
Python built-in round); base 10 with factor 1.5 gives 15, and base 5
with factor 0.8 gives 4. -/
theorem total_delay_round_half_even (t d h w f : ℚ)
    (hf : f ∈ CAR_TYPES.map Prod.snd) :
    total_delay (calculate_frost_risk t d h w).base_minutes f =
      roundHalfEven (↑(calculate_frost_risk t d h w).base_minutes * f) ∧
    total_delay 10 (3/2) = 15 ∧ total_delay 5 (4/5) = 4 := by
  refine ⟨rfl, ?_, ?_⟩ <;>
    norm_num [total_delay, roundHalfEven, Int.floor_eq_iff]

/-- Witness for C7 with the factor 3/2 of the Van / Truck profile. -/
theorem total_delay_round_half_even_witness :
    total_delay 10 (3/2) = 15 ∧ total_delay 5 (4/5) = 4 :=
  (total_delay_round_half_even 0 0 0 0 (3/2) (by simp [CAR_TYPES])).2

/-- Claim C8: when both steps of the search chain fail, the chain yields
the all-None triple, the handler reports not-found, and the stored
session location (latitude, longitude, display name) is unchanged. -/
theorem search_chain_failure_preserves_state (st : SessionState) :
    get_coordinates_from_search none none = (none, none, none) ∧
    handle_search st none none = (st, SearchOutcome.notFound) :=
  ⟨rfl, rfl⟩

/-- Claim C9: across the four CAR_TYPES delay factors, the computed
total delay is zero exactly when the classified risk is "None": every
non-None assessment (base minutes 2, 5, 10 or 15) rounds to a strictly
positive delay under every factor. -/
theorem delay_zero_iff_risk_none (t d h w f : ℚ)
    (hf : f ∈ CAR_TYPES.map Prod.snd) :
    total_delay (calculate_frost_risk t d h w).base_minutes f = 0 ↔
      (calculate_frost_risk t d h w).risk = "None" := by
  have hb := classify_cases t d h w
  simp only [CAR_TYPES, List.map_cons, List.map_nil, List.mem_cons,
    List.not_mem_nil, or_false] at hf
  rcases hf with hf | hf | hf | hf <;> subst hf <;>
    rcases hb with hb | hb | hb | hb | hb <;> rw [hb] <;>
    norm_num [total_delay, roundHalfEven, clearAssessment,
      lightFrostAssessment, frostIceAssessment, severeIceAssessment,
      fogAssessment, Int.floor_eq_iff] <;>
    decide

/-- Witness for C9 at a Light Frost hour with the Compact factor 4/5. -/
theorem delay_zero_iff_risk_none_witness :
    total_delay (calculate_frost_risk 2 (5/2) 85 5).base_minutes (4/5) = 0 ↔
      (calculate_frost_risk 2 (5/2) 85 5).risk = "None" :=
  delay_zero_iff_risk_none 2 (5/2) 85 5 (4/5) (by simp [CAR_TYPES])

/-- Claim C10: a resolved latitude equal to 0 is falsy under the Python
truthiness test of the handler, so the handler reports not-found and
leaves the session state unchanged; and when a stored coordinate equals
0, the fetch-and-render guard is false, skipping the forecast fetch and
all rendering. -/
theorem zero_latitude_treated_as_missing (st : SessionState) (lo : ℚ)
    (n : String) (g : Option GeoResult) (st2 : SessionState)
    (h2 : st2.latitude = 0 ∨ st2.longitude = 0) :
    handle_search st (some ((0:ℚ), lo, n)) g = (st, SearchOutcome.notFound) ∧
    shouldFetch st2 = false := by
  constructor
  · rfl
  · rcases h2 with h2 | h2 <;> simp [shouldFetch, h2]

/-- Witness for C10 at a concrete state with zero latitude. -/
theorem zero_latitude_treated_as_missing_witness :
    handle_search ⟨103/2, -(3/25), "London, UK"⟩ (some ((0:ℚ), (1:ℚ), "Null Island")) none =
      (⟨103/2, -(3/25), "London, UK"⟩, SearchOutcome.notFound) ∧
    shouldFetch ⟨0, 5, "Equator"⟩ = false :=
  zero_latitude_treated_as_missing ⟨103/2, -(3/25), "London, UK"⟩ 1
    "Null Island" none ⟨0, 5, "Equator"⟩ (Or.inl rfl)

end Weather
